import Mathlib

/-!
Verification of the satellite-orbit dashboard's data pipeline (`app.py`).

The dashboard loads a five-column CSV store (Satellite Name, Time (UTC), Latitude,
Longitude, Altitude (m)), validates it, filters it by date range, altitude band and
satellite subset, optionally downsamples it into fixed time buckets per satellite,
renders summary metrics and a single-satellite view, and exports the current view
as CSV.

Modelling conventions (shallow embedding of the pandas code):
- a dataframe row is a record of its column values; tables are Lean lists in frame
  order;
- timestamps are whole seconds since the UNIX epoch (`Int`); the three
  floating-point columns are exact rationals (`ℚ`);
- a raw CSV cell is a `Cell`: either blank, text that parses as nothing else, a
  numeric value, or a timestamp value; pandas value serialisation round-trips
  numbers and timestamps exactly (`to_csv` prints floats at full round-trip
  precision), which the `Cell` representation reflects;
- `%` and `/` on `Int` are Euclidean here, i.e. floor semantics for the positive
  divisors used (bucket widths, seconds per day).
-/

namespace OrbitApp

/-- One fully-validated observation: a row of the dataframe produced by
`load_orbit_data` (columns Satellite Name, Time (UTC), Latitude, Longitude,
Altitude (m)). -/
structure OrbitRow where
  sat : String
  time : Int
  lat : ℚ
  lon : ℚ
  alt : ℚ
deriving DecidableEq, Repr

/-- One CSV cell as `pd.read_csv` classifies it: blank (missing), text that is
neither numeric nor a timestamp, a numeric value, or a parseable timestamp. -/
inductive Cell where
  | blank
  | text (s : String)
  | num (q : ℚ)
  | stamp (t : Int)
deriving DecidableEq, Repr

/-- `pd.to_numeric(col, errors="coerce")` on one cell: numeric cells keep their
value, anything unparseable (non-numeric text, timestamps, blanks) coerces to
missing (NaN). -/
def toNumeric : Cell → Option ℚ
  | Cell.num q => some q
  | _ => none

/-- The value a cell contributes to the string-typed `Satellite Name` column:
blank and empty cells are missing (NaN, the default na_values include the empty
string); text is kept; numeric or timestamp cells read back as their printed
form. -/
def cellString : Cell → Option String
  | Cell.blank => none
  | Cell.text s => if s = "" then none else some s
  | Cell.num q => some (toString q)
  | Cell.stamp t => some (toString t)

/-- One cell of the `Time (UTC)` column under `parse_dates`: a timestamp cell
parses, a blank becomes NaT (missing), any other cell fails. -/
def cellInstant : Cell → Option (Option Int)
  | Cell.stamp t => some (some t)
  | Cell.blank => some none
  | _ => none

/-- `parse_dates=["Time (UTC)"]` works on the whole column: when every cell is a
timestamp or blank the column becomes datetimes (blank ↦ NaT); if any cell fails
to parse, pandas leaves the entire column unaltered as text (object dtype). -/
def parseTimeColumn : List Cell → Option (List (Option Int))
  | [] => some []
  | c :: cs =>
    match cellInstant c, parseTimeColumn cs with
    | some t, some ts => some (t :: ts)
    | _, _ => none

/-- One raw record of the store file, one `Cell` per column of
`data/all_satellite_orbits.csv`. -/
structure RawRow where
  sat : Cell
  time : Cell
  lat : Cell
  lon : Cell
  alt : Cell
deriving DecidableEq, Repr

/-- A surviving row in the degenerate case where the timestamp column failed to
parse as datetimes and was left as raw cells. -/
structure ObjRow where
  sat : String
  time : Cell
  lat : ℚ
  lon : ℚ
  alt : ℚ
deriving DecidableEq, Repr

/-- Result of `load_orbit_data`: either a table whose timestamp column parsed as
datetimes, or one whose timestamp column stayed object-typed. -/
inductive LoadResult where
  | parsed (rows : List OrbitRow)
  | unparsedTime (rows : List ObjRow)
deriving DecidableEq, Repr

/-- Validation of one row when the timestamp column parsed: the row survives
`dropna` exactly when all five required fields are non-missing. -/
def validRow (rr : RawRow) (t : Option Int) : Option OrbitRow :=
  match cellString rr.sat, t, toNumeric rr.lat, toNumeric rr.lon, toNumeric rr.alt with
  | some s, some tt, some la, some lo, some al => some ⟨s, tt, la, lo, al⟩
  | _, _, _, _, _ => none

/-- `dropna` over the table, pairing each raw row with its parsed timestamp. -/
def dropnaRows : List RawRow → List (Option Int) → List OrbitRow
  | rr :: rrs, t :: ts =>
    (match validRow rr t with
     | some r => r :: dropnaRows rrs ts
     | none => dropnaRows rrs ts)
  | _, _ => []

/-- Validation of one row when the timestamp column stayed object-typed: the
timestamp cell is missing only when blank, so unparseable timestamp text
survives `dropna`. -/
def validObjRow (rr : RawRow) : Option ObjRow :=
  match cellString rr.sat, toNumeric rr.lat, toNumeric rr.lon, toNumeric rr.alt with
  | some s, some la, some lo, some al =>
    if rr.time = Cell.blank then none else some ⟨s, rr.time, la, lo, al⟩
  | _, _, _, _ => none

/-- `load_orbit_data` (`app.py` lines 19-50): read the store with
`parse_dates=["Time (UTC)"]`, coerce Latitude/Longitude/Altitude (m) to numeric
with `errors="coerce"`, and drop every row with a missing value in any of the
five required columns. -/
def load_orbit_data (raw : List RawRow) : LoadResult :=
  match parseTimeColumn (raw.map RawRow.time) with
  | some ts => LoadResult.parsed (dropnaRows raw ts)
  | none => LoadResult.unparsedTime (raw.filterMap validObjRow)

/-- The sidebar `Time Resolution` selectbox: "All", "5 min", "10 min", "30 min". -/
inductive TimeStep where
  | all
  | fiveMin
  | tenMin
  | thirtyMin
deriving DecidableEq, Repr

/-- The `rule` lookup (lines 121-125): bucket width in seconds, `none` for "All". -/
def TimeStep.rule : TimeStep → Option Int
  | TimeStep.all => none
  | TimeStep.fiveMin => some 300
  | TimeStep.tenMin => some 600
  | TimeStep.thirtyMin => some 1800

/-- The sidebar state one recomputation runs under: date range (inclusive,
calendar days since the epoch), altitude range (inclusive, meters), satellite
multiselect (empty = all), and time resolution. -/
structure FilterCriteria where
  startDate : Int
  endDate : Int
  altMin : ℚ
  altMax : ℚ
  sats : List String
  step : TimeStep
deriving DecidableEq, Repr

/-- `.dt.date`: the calendar day of a timestamp, as days since the epoch
(floor division by 86400 seconds). -/
def dateOf (t : Int) : Int := t / 86400

/-- The filter pipeline (lines 107-117): one boolean mask conjoining the two
date bounds and the two altitude bounds, then — only when the multiselect is
nonempty — the `isin` satellite mask. Mask selection copies; the input frame is
untouched. -/
def filtered_df (c : FilterCriteria) (df : List OrbitRow) : List OrbitRow :=
  let base := df.filter (fun r =>
    decide (c.startDate ≤ dateOf r.time) && decide (dateOf r.time ≤ c.endDate) &&
    decide (c.altMin ≤ r.alt) && decide (r.alt ≤ c.altMax))
  if c.sats.isEmpty then base else base.filter (fun r => decide (r.sat ∈ c.sats))

/-- `dt.floor(rule)` (line 127): truncate a timestamp to the epoch-aligned
bucket of width `w`. -/
def floorTo (w t : Int) : Int := t - t % w

/-- The groupby key of a row: (Satellite Name, Time Bin). -/
def keyOf (w : Int) (r : OrbitRow) : String × Int := (r.sat, floorTo w r.time)

/-- Code-point lexicographic strict order on char lists (Python string
comparison, which orders the groupby keys). -/
def charsLt : List Char → List Char → Bool
  | [], [] => false
  | [], _ :: _ => true
  | _ :: _, [] => false
  | a :: as, b :: bs =>
    if a.val < b.val then true else if b.val < a.val then false else charsLt as bs

/-- Python string comparison on the underlying char lists. -/
def strLtB (a b : String) : Bool := charsLt a.data b.data

/-- Lexicographic order on (Satellite Name, Time Bin) groupby keys. -/
def keyLE (a b : String × Int) : Bool :=
  strLtB a.1 b.1 || (decide (a.1 = b.1) && decide (a.2 ≤ b.2))

/-- The distinct (Satellite Name, Time Bin) pairs of the table in ascending key
order, as `groupby(["Satellite Name", "Time Bin"], sort=True)` enumerates its
groups. -/
def groupKeys (w : Int) (rows : List OrbitRow) : List (String × Int) :=
  List.insertionSort (fun a b => keyLE a b = true) ((rows.map (keyOf w)).dedup)

/-- One row of the downsampled frame (lines 129-135). `groupby(...).first()`
keeps every non-key column — including the original `Time (UTC)` —
`reset_index` brings the key back as the `Satellite Name` and `Time Bin`
columns, and `rename` retitles `Time Bin` to `Time (UTC)`, so the frame carries
both the bucket (`bin`) and the source row's pre-bucketing timestamp
(`origTime`), both now titled "Time (UTC)". -/
structure BinnedRow where
  sat : String
  bin : Int
  origTime : Int
  lat : ℚ
  lon : ℚ
  alt : ℚ
deriving DecidableEq, Repr

/-- `first()` on one group: the group's first row in input order (equal to the
first non-missing value column-wise, since validation left no missing values). -/
def groupFirst (w : Int) (rows : List OrbitRow) (k : String × Int) : Option OrbitRow :=
  rows.find? (fun r => decide (keyOf w r = k))

/-- The downsampling step (lines 127-135): one output row per distinct
(Satellite Name, Time Bin) pair, in sorted key order, carrying the first row of
the group. -/
def downsample (w : Int) (rows : List OrbitRow) : List BinnedRow :=
  (groupKeys w rows).filterMap (fun k =>
    (groupFirst w rows k).map (fun r => ⟨k.1, k.2, r.time, r.lat, r.lon, r.alt⟩))

/-- The table the tabs render: the filtered frame as-is, or its downsampled
form (which has a different column set). -/
inductive ViewTable where
  | plain (rows : List OrbitRow)
  | binned (rows : List BinnedRow)
deriving DecidableEq, Repr

/-- The `if time_step != "All"` guard (lines 120-135): "All" leaves the filtered
frame untouched, any bucket width replaces it with the grouped frame. -/
def applyTimeStep (s : TimeStep) (rows : List OrbitRow) : ViewTable :=
  match s.rule with
  | none => ViewTable.plain rows
  | some w => ViewTable.binned (downsample w rows)

/-- A pandas float value: a number or NaN. -/
inductive PFloat where
  | nan
  | val (q : ℚ)
deriving DecidableEq, Repr

/-- The `Satellite Name` column of the current view. -/
def viewSatNames : ViewTable → List String
  | ViewTable.plain rs => rs.map OrbitRow.sat
  | ViewTable.binned bs => bs.map BinnedRow.sat

/-- The `Altitude (m)` column of the current view. -/
def viewAltitudes : ViewTable → List ℚ
  | ViewTable.plain rs => rs.map OrbitRow.alt
  | ViewTable.binned bs => bs.map BinnedRow.alt

/-- `len(filtered_df)`. -/
def viewLength : ViewTable → Nat
  | ViewTable.plain rs => rs.length
  | ViewTable.binned bs => bs.length

/-- `Series.mean()`: NaN on an empty column, else the arithmetic mean. -/
def meanAlt (v : ViewTable) : PFloat :=
  let alts := viewAltitudes v
  if alts.isEmpty then PFloat.nan else PFloat.val (alts.sum / (alts.length : ℚ))

/-- Round to the nearest integer, ties to even (the rounding of Python's
fixed-point format specifier, exact on our rational model). -/
def roundHalfEven (q : ℚ) : Int :=
  if q - ⌊q⌋ < 1/2 then ⌊q⌋
  else if (1 : ℚ)/2 < q - ⌊q⌋ then ⌊q⌋ + 1
  else if ⌊q⌋ % 2 = 0 then ⌊q⌋ else ⌊q⌋ + 1

/-- Thousands separators: walking the digits from the least significant end,
insert a comma after every third digit that is not the last. -/
def insertCommasRev : List Char → Nat → List Char
  | [], _ => []
  | [c], _ => [c]
  | c :: cs, n =>
    if n = 2 then c :: ',' :: insertCommasRev cs 0 else c :: insertCommasRev cs (n + 1)

/-- Python `f"{x:,.0f}"` on a float: NaN formats as the string "nan"; a number
formats as its rounded integer part with thousands separators. -/
def fmtFloat0 : PFloat → String
  | PFloat.nan => "nan"
  | PFloat.val q =>
    let n := roundHalfEven q
    (if n < 0 then "-" else "") ++
      String.mk ((insertCommasRev (toString n.natAbs).data.reverse 0).reverse)

/-- A CSV artifact: a header record and the data records, cells in column
order. -/
structure Csv where
  header : List String
  rows : List (List Cell)
deriving DecidableEq, Repr

/-- The store's five column titles, in order. -/
def storeHeader : List String :=
  ["Satellite Name", "Time (UTC)", "Latitude", "Longitude", "Altitude (m)"]

/-- Column titles of the downsampled frame: `reset_index` puts the key columns
first and `rename` retitles `Time Bin` to the already-present "Time (UTC)". -/
def binnedHeader : List String :=
  ["Satellite Name", "Time (UTC)", "Time (UTC)", "Latitude", "Longitude", "Altitude (m)"]

/-- The cells `to_csv` writes for one plain row. -/
def cellsOfOrbitRow (r : OrbitRow) : List Cell :=
  [Cell.text r.sat, Cell.stamp r.time, Cell.num r.lat, Cell.num r.lon, Cell.num r.alt]

/-- The cells `to_csv` writes for one downsampled row: the bucket under the
first "Time (UTC)" title, the original timestamp under the second. -/
def cellsOfBinnedRow (b : BinnedRow) : List Cell :=
  [Cell.text b.sat, Cell.stamp b.bin, Cell.stamp b.origTime,
   Cell.num b.lat, Cell.num b.lon, Cell.num b.alt]

/-- `filtered_df.to_csv(index=False)` (line 273): header record then one record
per row of the current view. -/
def exportCsv : ViewTable → Csv
  | ViewTable.plain rs => ⟨storeHeader, rs.map cellsOfOrbitRow⟩
  | ViewTable.binned bs => ⟨binnedHeader, bs.map cellsOfBinnedRow⟩

/-- pandas' mangling of duplicate column titles on read: a repeated title X is
retitled X.1, X.2, ... for its second and later occurrences. -/
def mangle : List String → List String → List String
  | [], _ => []
  | h :: t, seen =>
    (if seen.contains h then h ++ "." ++ toString (seen.count h) else h) ::
      mangle t (h :: seen)

/-- The cell a named column holds in one record, after header mangling; a
missing column reads as blank. -/
def colCell (header : List String) (name : String) (cells : List Cell) : Cell :=
  match (mangle header []).findIdx? (fun h => decide (h = name)) with
  | some i => cells.getD i Cell.blank
  | none => Cell.blank

/-- Reading an exported artifact back: reconstruct one raw record per data
record by looking each of the five store columns up in the mangled header. -/
def rawOfCsv (c : Csv) : List RawRow :=
  c.rows.map (fun cells =>
    ⟨colCell c.header "Satellite Name" cells,
     colCell c.header "Time (UTC)" cells,
     colCell c.header "Latitude" cells,
     colCell c.header "Longitude" cells,
     colCell c.header "Altitude (m)" cells⟩)

/-- Re-loading an exported artifact through the Loader/Validator. -/
def reloadCsv (c : Csv) : LoadResult := load_orbit_data (rawOfCsv c)

/-- The OrbitSamples a view denotes: for a downsampled view, the displayed
timestamp is the bucket boundary (the first of its two "Time (UTC)" columns). -/
def samplesOf : ViewTable → List OrbitRow
  | ViewTable.plain rs => rs
  | ViewTable.binned bs => bs.map (fun b => ⟨b.sat, b.bin, b.lat, b.lon, b.alt⟩)

/-- `sat_df` (lines 221-224): the single-satellite view, computed from the FULL
validated table (not from `filtered_df`), sorted ascending by timestamp.
`sort_values` is modelled by a comparison sort on the timestamp; the source's
default quicksort guarantees the same multiset and the same sortedness (only
the order of equal-timestamp ties is unspecified there). -/
def sat_df (sel : String) (df : List OrbitRow) : List OrbitRow :=
  List.insertionSort (fun a b => a.time ≤ b.time) (df.filter (fun r => decide (r.sat = sel)))

/-- Everything one recomputation derives for the tabs: the current view, the
three tab-1 metrics that depend on the data, the tab-3 single-satellite view,
and the tab-4 download artifact. -/
structure Dashboard where
  view : ViewTable
  uniqueSats : Nat
  sampleCount : Nat
  meanAltText : String
  satTab : List OrbitRow
  download : Csv
deriving DecidableEq, Repr

/-- One full recomputation of the dashboard against the validated table `df`
under sidebar state `c` with tab-3 satellite `sel`: filter, downsample, then
metrics (`nunique`, `len`, formatted mean altitude), single-satellite view and
CSV export — the script body of `app.py` below the load. -/
def renderDashboard (c : FilterCriteria) (sel : String) (df : List OrbitRow) : Dashboard :=
  let view := applyTimeStep c.step (filtered_df c df)
  { view := view,
    uniqueSats := (viewSatNames view).dedup.length,
    sampleCount := viewLength view,
    meanAltText := fmtFloat0 (meanAlt view),
    satTab := sat_df sel df,
    download := exportCsv view }

/-- The state a session holds across interactions: the cached validated table. -/
structure SessionState where
  base : List OrbitRow
deriving DecidableEq, Repr

/-- One user interaction: the cached validated table is read and a fresh
dashboard is derived from it; every stage (mask selection, the bucket-column
assignment on the filtered copy, groupby) produces a new frame. -/
def recompute (c : FilterCriteria) (sel : String) (s : SessionState) :
    SessionState × Dashboard :=
  (s, renderDashboard c sel s.base)

/-! ### Concrete tables used in example scenarios and witnesses -/

/-- Three rows for satellite SAT-A at 00:00, 00:03 and 00:07 UTC, all with
altitude 500000 m (the spec's downsampling example scenario), with distinct
latitudes and longitudes so that the carried data is visible. -/
def rowsC5 : List OrbitRow :=
  [⟨"SAT-A", 0, 11, 12, 500000⟩, ⟨"SAT-A", 180, 21, 22, 500000⟩,
   ⟨"SAT-A", 420, 31, 32, 500000⟩]

/-- A two-satellite dataset whose altitudes are all exactly 500000 m. -/
def dfC2 : List OrbitRow :=
  [⟨"SAT-A", 0, 10, 20, 500000⟩, ⟨"SAT-B", 300, 30, 40, 500000⟩]

/-- Sidebar state with the altitude slider at [600000, 600000], matching no
row of `dfC2`. -/
def critC2 : FilterCriteria := ⟨0, 0, 600000, 600000, [], TimeStep.all⟩

/-- Sidebar state covering all of `rowsC5` with the 5-minute resolution. -/
def critRT : FilterCriteria := ⟨0, 0, 0, 600000, [], TimeStep.fiveMin⟩

/-! ### Helper lemmas -/

/-- Membership in the filtered table: the conjunction of the date-range,
altitude-range and (when the multiselect is nonempty) satellite-subset
predicates, over rows of the input. -/
theorem mem_filtered_df {c : FilterCriteria} {df : List OrbitRow} {r : OrbitRow} :
    r ∈ filtered_df c df ↔
      r ∈ df ∧ (c.startDate ≤ dateOf r.time ∧ dateOf r.time ≤ c.endDate) ∧
      (c.altMin ≤ r.alt ∧ r.alt ≤ c.altMax) ∧ (c.sats = [] ∨ r.sat ∈ c.sats) := by
  unfold filtered_df
  split
  next hempty =>
    have hnil : c.sats = [] := List.isEmpty_iff.mp hempty
    simp only [List.mem_filter, Bool.and_eq_true, decide_eq_true_eq, hnil]
    tauto
  next hnempty =>
    have hnil : ¬c.sats = [] := fun h => hnempty (List.isEmpty_iff.mpr h)
    simp only [List.mem_filter, Bool.and_eq_true, decide_eq_true_eq]
    tauto

/-- Flooring to a positive bucket width never increases the timestamp. -/
theorem floorTo_le {w t : Int} (hw : 0 < w) : floorTo w t ≤ t := by
  have h := Int.emod_nonneg t (by omega : w ≠ 0)
  unfold floorTo
  omega

/-- A timestamp lies strictly before the end of its bucket. -/
theorem lt_floorTo_add {w t : Int} (hw : 0 < w) : t < floorTo w t + w := by
  have h := Int.emod_lt_of_pos t hw
  unfold floorTo
  omega

/-- Every group key of the table is realised, so `first()` finds a row. -/
theorem groupFirst_isSome {w : Int} {rows : List OrbitRow} {k : String × Int}
    (hk : k ∈ groupKeys w rows) : ∃ r, groupFirst w rows k = some r := by
  have hmem : k ∈ (rows.map (keyOf w)).dedup :=
    ((List.perm_insertionSort _ _).mem_iff).mp hk
  rw [List.mem_dedup, List.mem_map] at hmem
  obtain ⟨r, hr, hkey⟩ := hmem
  have hs : (rows.find? (fun r => decide (keyOf w r = k))).isSome = true := by
    rw [List.find?_isSome]
    exact ⟨r, hr, by simp [hkey]⟩
  exact Option.isSome_iff_exists.mp hs

/-- The group keys carry no duplicates. -/
theorem groupKeys_nodup (w : Int) (rows : List OrbitRow) : (groupKeys w rows).Nodup :=
  (List.perm_insertionSort _ _).symm.nodup (List.nodup_dedup _)

/-- Every downsampled row is built from a source row of its own group: the
source belongs to the input, has the row's (satellite, bucket) key, and
supplies all carried column values. -/
theorem exists_source_of_mem_downsample {w : Int} {rows : List OrbitRow} {b : BinnedRow}
    (hb : b ∈ downsample w rows) :
    ∃ r ∈ rows, keyOf w r = (b.sat, b.bin) ∧
      b.origTime = r.time ∧ b.lat = r.lat ∧ b.lon = r.lon ∧ b.alt = r.alt := by
  unfold downsample at hb
  rw [List.mem_filterMap] at hb
  obtain ⟨k, _, hmap⟩ := hb
  rw [Option.map_eq_some'] at hmap
  obtain ⟨r, hfind, hbeq⟩ := hmap
  have hrmem := List.mem_of_find?_eq_some hfind
  have hkey : keyOf w r = k := by simpa using List.find?_some hfind
  subst hbeq
  exact ⟨r, hrmem, hkey, rfl, rfl, rfl, rfl⟩

/-- Auxiliary: over any key list on which `first()` succeeds, building one row
per key and projecting the key back is the identity. -/
theorem filterMap_map_key (w : Int) (rows : List OrbitRow) :
    ∀ ks : List (String × Int), (∀ k ∈ ks, ∃ r, groupFirst w rows k = some r) →
      (ks.filterMap (fun k => (groupFirst w rows k).map
          (fun r => (⟨k.1, k.2, r.time, r.lat, r.lon, r.alt⟩ : BinnedRow)))).map
        (fun b => (b.sat, b.bin)) = ks := by
  intro ks
  induction ks with
  | nil => intro _; rfl
  | cons k ks ih =>
    intro h
    obtain ⟨r, hr⟩ := h k (List.mem_cons_self k ks)
    simp [List.filterMap_cons, hr, ih (fun k hk => h k (List.mem_cons_of_mem _ hk))]

/-- The (satellite, bucket) keys of the downsampled table are exactly the
group keys, in order. -/
theorem downsample_map_key (w : Int) (rows : List OrbitRow) :
    (downsample w rows).map (fun b => (b.sat, b.bin)) = groupKeys w rows := by
  unfold downsample
  exact filterMap_map_key w rows (groupKeys w rows) (fun _ hk => groupFirst_isSome hk)

/-! ### Claim theorems -/

/-- C4: for every input table and bucket width W in five, ten or thirty
minutes, no two downsampled rows share a (satellite, bucket) pair, and each
output row has a source row of the input with that exact key — so no bucket is
invented — whose timestamp lies in [bucket, bucket + W) and which supplies
every carried column value. -/
theorem downsample_cardinality (w : Int) (hw : w = 300 ∨ w = 600 ∨ w = 1800)
    (rows : List OrbitRow) :
    List.Pairwise (fun a b : BinnedRow => ¬(a.sat = b.sat ∧ a.bin = b.bin))
      (downsample w rows) ∧
    ∀ b ∈ downsample w rows, ∃ r ∈ rows,
      r.sat = b.sat ∧ floorTo w r.time = b.bin ∧
      b.origTime = r.time ∧ b.lat = r.lat ∧ b.lon = r.lon ∧ b.alt = r.alt ∧
      b.bin ≤ r.time ∧ r.time < b.bin + w := by
  have hw0 : 0 < w := by rcases hw with h | h | h <;> omega
  constructor
  · have h1 : ((downsample w rows).map (fun b => (b.sat, b.bin))).Nodup := by
      rw [downsample_map_key]
      exact groupKeys_nodup w rows
    rw [List.Nodup, List.pairwise_map] at h1
    exact h1.imp (fun hne hab => hne (by rw [hab.1, hab.2]))
  · intro b hb
    obtain ⟨r, hr, hkey, ho, hla, hlo, hal⟩ := exists_source_of_mem_downsample hb
    rw [keyOf, Prod.mk.injEq] at hkey
    obtain ⟨hsat, hbin⟩ := hkey
    refine ⟨r, hr, hsat, hbin, ho, hla, hlo, hal, ?_, ?_⟩
    · rw [← hbin]; exact floorTo_le hw0
    · rw [← hbin]; exact lt_floorTo_add hw0

/-- Witness for C4 at the 5-minute width on the example table. -/
theorem downsample_cardinality_witness :
    ((300 : Int) = 300 ∨ (300 : Int) = 600 ∨ (300 : Int) = 1800) ∧
    (List.Pairwise (fun a b : BinnedRow => ¬(a.sat = b.sat ∧ a.bin = b.bin))
      (downsample 300 rowsC5) ∧
    ∀ b ∈ downsample 300 rowsC5, ∃ r ∈ rowsC5,
      r.sat = b.sat ∧ floorTo 300 r.time = b.bin ∧
      b.origTime = r.time ∧ b.lat = r.lat ∧ b.lon = r.lon ∧ b.alt = r.alt ∧
      b.bin ≤ r.time ∧ r.time < b.bin + 300) :=
  ⟨Or.inl rfl, downsample_cardinality 300 (Or.inl rfl) rowsC5⟩

/-- C5: three rows for SAT-A at 00:00, 00:03, 00:07 UTC, all at altitude
500000 m, downsampled at a 5-minute bucket width, produce exactly two rows:
bucket 00:00 carrying the 00:00 sample (the first of the two rows of that
bucket in source order) and bucket 00:05 carrying the 00:07 sample. -/
theorem downsample_example_scenario :
    applyTimeStep TimeStep.fiveMin rowsC5 = ViewTable.binned
      [⟨"SAT-A", 0, 0, 11, 12, 500000⟩, ⟨"SAT-A", 300, 420, 31, 32, 500000⟩] := by
  decide

/-- C6: selecting the "All" time resolution leaves the filtered table
unchanged — the very same rows, values and order. -/
theorem downsample_identity_unbounded (c : FilterCriteria) (df : List OrbitRow) :
    applyTimeStep TimeStep.all (filtered_df c df) = ViewTable.plain (filtered_df c df) :=
  rfl

/-- C1 (divergence witness): on the 5-minute downsampled example table the
exported artifact does NOT have the store's five-column format: its header is
the six-title duplicate header, and the third column still carries the
original pre-bucketing timestamps (00:00 and 00:07, the latter distinct from
its bucket 00:05). -/
theorem downsample_output_keeps_pre_bucket_timestamps :
    (exportCsv (applyTimeStep TimeStep.fiveMin rowsC5)).header = binnedHeader ∧
    binnedHeader ≠ storeHeader ∧
    (exportCsv (applyTimeStep TimeStep.fiveMin rowsC5)).header.length = 6 ∧
    (exportCsv (applyTimeStep TimeStep.fiveMin rowsC5)).rows.map
        (fun cs => cs.getD 2 Cell.blank) = [Cell.stamp 0, Cell.stamp 420] ∧
    Cell.stamp 420 ≠ Cell.stamp 300 := by
  decide

/-- C2 (divergence witness): the altitude filter [600000, 600000] against a
dataset whose altitudes are all exactly 500000 m yields zero rows, and the
mean-altitude metric renders as the raw formatted NaN — the string "nan" — not
as a "no data" placeholder. -/
theorem empty_filter_mean_renders_raw_nan :
    filtered_df critC2 dfC2 = [] ∧
    (renderDashboard critC2 "SAT-A" dfC2).meanAltText = "nan" ∧
    (renderDashboard critC2 "SAT-A" dfC2).meanAltText ≠ "no data" := by
  decide

/-- C2 (amended): for every sidebar state whose filter produces zero rows, the
recomputation completes without failure: the mean-altitude metric renders as
the string "nan" (the formatted NaN, there being no dedicated placeholder),
and the count metrics are zero over the empty view. -/
theorem empty_filter_degrades_gracefully (c : FilterCriteria) (sel : String)
    (df : List OrbitRow) (h : filtered_df c df = []) :
    (renderDashboard c sel df).meanAltText = "nan" ∧
    (renderDashboard c sel df).uniqueSats = 0 ∧
    (renderDashboard c sel df).sampleCount = 0 := by
  simp only [renderDashboard, h]
  cases c.step <;> exact ⟨rfl, rfl, rfl⟩

/-- Witness for the amended C2 on the example scenario's inputs. -/
theorem empty_filter_degrades_gracefully_witness :
    filtered_df critC2 dfC2 = [] ∧
    ((renderDashboard critC2 "SAT-A" dfC2).meanAltText = "nan" ∧
     (renderDashboard critC2 "SAT-A" dfC2).uniqueSats = 0 ∧
     (renderDashboard critC2 "SAT-A" dfC2).sampleCount = 0) :=
  ⟨by decide, empty_filter_degrades_gracefully critC2 "SAT-A" dfC2 (by decide)⟩

/-- C7: under in-range date and satellite conditions, a row with altitude
exactly alt_min or alt_max passes the filter while a row one unit outside
either bound does not; symmetrically, a row whose calendar day equals
start_date or end_date passes when its altitude is in range — all four bounds
are inclusive. -/
theorem filter_range_inclusivity (df : List OrbitRow) (c : FilterCriteria) (r : OrbitRow)
    (halt : c.altMin ≤ c.altMax) (hdates : c.startDate ≤ c.endDate)
    (hmem : r ∈ df) (hsat : c.sats = [] ∨ r.sat ∈ c.sats) :
    ((c.startDate ≤ dateOf r.time ∧ dateOf r.time ≤ c.endDate) →
      (((r.alt = c.altMin ∨ r.alt = c.altMax) → r ∈ filtered_df c df) ∧
       ((r.alt = c.altMin - 1 ∨ r.alt = c.altMax + 1) → r ∉ filtered_df c df))) ∧
    ((c.altMin ≤ r.alt ∧ r.alt ≤ c.altMax) →
      ((dateOf r.time = c.startDate ∨ dateOf r.time = c.endDate) →
        r ∈ filtered_df c df)) := by
  constructor
  · rintro ⟨hd1, hd2⟩
    constructor
    · intro he
      rw [mem_filtered_df]
      refine ⟨hmem, ⟨hd1, hd2⟩, ?_, hsat⟩
      rcases he with he | he <;> rw [he]
      · exact ⟨le_refl _, halt⟩
      · exact ⟨halt, le_refl _⟩
    · intro he hin
      rw [mem_filtered_df] at hin
      obtain ⟨-, -, ⟨hge, hle⟩, -⟩ := hin
      rcases he with he | he <;> rw [he] at hge hle <;> linarith
  · rintro ⟨ha1, ha2⟩ he
    rw [mem_filtered_df]
    refine ⟨hmem, ?_, ⟨ha1, ha2⟩, hsat⟩
    rcases he with he | he <;> rw [he]
    · exact ⟨le_refl _, hdates⟩
    · exact ⟨hdates, le_refl _⟩

/-- A one-row table on the altitude boundary for the C7 witness. -/
def dfC7 : List OrbitRow := [⟨"SAT-A", 0, 1, 2, 400000⟩]

/-- Sidebar state whose altitude slider lower bound equals the row's altitude. -/
def critC7 : FilterCriteria := ⟨0, 1, 400000, 600000, ["SAT-A"], TimeStep.all⟩

/-- Witness for C7 at a concrete boundary row. -/
theorem filter_range_inclusivity_witness :
    critC7.altMin ≤ critC7.altMax ∧ critC7.startDate ≤ critC7.endDate ∧
    (⟨"SAT-A", 0, 1, 2, 400000⟩ : OrbitRow) ∈ dfC7 ∧
    (critC7.sats = [] ∨ ("SAT-A" : String) ∈ critC7.sats) ∧
    (((critC7.startDate ≤ dateOf (0 : Int) ∧ dateOf (0 : Int) ≤ critC7.endDate) →
      ((((400000 : ℚ) = critC7.altMin ∨ (400000 : ℚ) = critC7.altMax) →
          (⟨"SAT-A", 0, 1, 2, 400000⟩ : OrbitRow) ∈ filtered_df critC7 dfC7) ∧
       (((400000 : ℚ) = critC7.altMin - 1 ∨ (400000 : ℚ) = critC7.altMax + 1) →
          (⟨"SAT-A", 0, 1, 2, 400000⟩ : OrbitRow) ∉ filtered_df critC7 dfC7))) ∧
     ((critC7.altMin ≤ (400000 : ℚ) ∧ (400000 : ℚ) ≤ critC7.altMax) →
      ((dateOf (0 : Int) = critC7.startDate ∨ dateOf (0 : Int) = critC7.endDate) →
        (⟨"SAT-A", 0, 1, 2, 400000⟩ : OrbitRow) ∈ filtered_df critC7 dfC7))) :=
  ⟨by decide, by decide, by decide, by decide,
    filter_range_inclusivity dfC7 critC7 ⟨"SAT-A", 0, 1, 2, 400000⟩
      (by decide) (by decide) (by decide) (by decide)⟩

/-- C9: the single-satellite view is derived from the full validated table —
it contains exactly that satellite's rows regardless of the active filter
criteria (the same view is produced under any two sidebar states), sorted
ascending by timestamp. -/
theorem single_satellite_view_bypasses_filters (df : List OrbitRow) (sel : String)
    (c c' : FilterCriteria) :
    (renderDashboard c sel df).satTab = sat_df sel df ∧
    (renderDashboard c sel df).satTab = (renderDashboard c' sel df).satTab ∧
    (∀ r : OrbitRow, r ∈ sat_df sel df ↔ r ∈ df ∧ r.sat = sel) ∧
    List.Sorted (fun a b : OrbitRow => a.time ≤ b.time) (sat_df sel df) := by
  refine ⟨rfl, rfl, ?_, ?_⟩
  · intro r
    unfold sat_df
    rw [(List.perm_insertionSort _ _).mem_iff, List.mem_filter]
    simp
  · unfold sat_df
    haveI : IsTotal OrbitRow (fun a b => a.time ≤ b.time) :=
      ⟨fun a b => le_total a.time b.time⟩
    haveI : IsTrans OrbitRow (fun a b => a.time ≤ b.time) :=
      ⟨fun _ _ _ h1 h2 => le_trans h1 h2⟩
    exact List.sorted_insertionSort _ _

/-- C10: one recomputation never mutates the cached validated table — the
session state after the interaction is identical, the dashboard is a fresh
derivation from the base, and the derived tables only draw rows from the
base. -/
theorem base_table_never_mutated (c : FilterCriteria) (sel : String) (s : SessionState) :
    (recompute c sel s).1 = s ∧
    (recompute c sel s).2 = renderDashboard c sel s.base ∧
    (∀ r ∈ filtered_df c s.base, r ∈ s.base) ∧
    (∀ r ∈ (recompute c sel s).2.satTab, r ∈ s.base) := by
  refine ⟨rfl, rfl, ?_, ?_⟩
  · intro r hr
    exact (mem_filtered_df.mp hr).1
  · intro r hr
    have hmem : r ∈ s.base.filter (fun r => decide (r.sat = sel)) :=
      (List.perm_insertionSort _ _).mem_iff.mp hr
    exact (List.mem_filter.mp hmem).1

/-- A one-row store whose timestamp cell is text that parses as no instant. -/
def rawBadTime : List RawRow :=
  [⟨Cell.text "SAT-A", Cell.text "not a timestamp", Cell.num 10, Cell.num 20,
    Cell.num 500000⟩]

/-- C8 (divergence witness): a row whose timestamp field is unparseable is NOT
dropped — the failed `parse_dates` leaves the whole timestamp column as text,
the cell is not missing, and the row survives validation with a non-instant
timestamp value. -/
theorem unparseable_timestamp_not_dropped :
    load_orbit_data rawBadTime =
      LoadResult.unparsedTime [⟨"SAT-A", Cell.text "not a timestamp", 10, 20, 500000⟩] := by
  decide

/-- `dropna` over paired rows and parsed timestamps is the filterMap of
per-row validation over the zipped table. -/
theorem dropnaRows_eq_filterMap (raw : List RawRow) :
    ∀ ts : List (Option Int),
      dropnaRows raw ts = (raw.zip ts).filterMap (fun p => validRow p.1 p.2) := by
  induction raw with
  | nil => intro ts; cases ts <;> rfl
  | cons rr rrs ih =>
    intro ts
    cases ts with
    | nil => rfl
    | cons t ts =>
      cases h : validRow rr t <;>
        simp [dropnaRows, List.zip_cons_cons, List.filterMap_cons, h, ih ts]

/-- C8 (amended): provided every timestamp cell of the store parses or is
blank — so `parse_dates` turns the column into datetimes — the validated table
is exactly the rows whose five fields are all present and parseable, each kept
unchanged; rows failing any field are absent. (When some timestamp cell is
unparseable text, pandas instead leaves the whole column as text and such rows
are not dropped.) -/
theorem validation_drops_invalid_rows (raw : List RawRow) (ts : List (Option Int))
    (h : parseTimeColumn (raw.map RawRow.time) = some ts) :
    ∃ rows, load_orbit_data raw = LoadResult.parsed rows ∧
      ∀ o : OrbitRow, o ∈ rows ↔ ∃ p ∈ raw.zip ts, validRow p.1 p.2 = some o := by
  refine ⟨dropnaRows raw ts, ?_, ?_⟩
  · unfold load_orbit_data
    rw [h]
  · intro o
    rw [dropnaRows_eq_filterMap, List.mem_filterMap]

/-- A store mixing one fully-valid row with rows invalid in one field each:
non-numeric latitude, blank satellite name, blank timestamp. -/
def rawMixed : List RawRow :=
  [⟨Cell.text "SAT-A", Cell.stamp 0, Cell.num 10, Cell.num 20, Cell.num 500000⟩,
   ⟨Cell.text "SAT-B", Cell.stamp 60, Cell.text "abc", Cell.num 20, Cell.num 1⟩,
   ⟨Cell.blank, Cell.stamp 120, Cell.num 1, Cell.num 2, Cell.num 3⟩,
   ⟨Cell.text "SAT-C", Cell.blank, Cell.num 1, Cell.num 2, Cell.num 3⟩]

/-- The parsed timestamp column of `rawMixed` (blank ↦ NaT). -/
def tsMixed : List (Option Int) := [some 0, some 60, some 120, none]

/-- Witness for the amended C8 on a table with one invalid row per field. -/
theorem validation_drops_invalid_rows_witness :
    parseTimeColumn (rawMixed.map RawRow.time) = some tsMixed ∧
    (∃ rows, load_orbit_data rawMixed = LoadResult.parsed rows ∧
      ∀ o : OrbitRow, o ∈ rows ↔ ∃ p ∈ rawMixed.zip tsMixed, validRow p.1 p.2 = some o) :=
  ⟨by decide, validation_drops_invalid_rows rawMixed tsMixed (by decide)⟩

/-- Reading the export of an un-downsampled view back produces exactly the
well-formed raw row of each exported row. -/
theorem rawOfCsv_plain (rs : List OrbitRow) :
    rawOfCsv (exportCsv (ViewTable.plain rs)) = rs.map (fun r =>
      ⟨Cell.text r.sat, Cell.stamp r.time, Cell.num r.lat, Cell.num r.lon,
       Cell.num r.alt⟩) := by
  unfold rawOfCsv exportCsv
  rw [List.map_map]
  rfl

/-- Reading the export of a downsampled view back: the duplicate second
"Time (UTC)" column is mangled to "Time (UTC).1" and ignored, so each raw row
carries the bucket as its timestamp and the three numeric fields. -/
theorem rawOfCsv_binned (bs : List BinnedRow) :
    rawOfCsv (exportCsv (ViewTable.binned bs)) = bs.map (fun b =>
      ⟨Cell.text b.sat, Cell.stamp b.bin, Cell.num b.lat, Cell.num b.lon,
       Cell.num b.alt⟩) := by
  unfold rawOfCsv exportCsv
  rw [List.map_map]
  rfl

/-- A column of timestamp cells always parses under `parse_dates`. -/
theorem parseTimeColumn_stamps {α : Type} (g : α → Int) (l : List α) :
    parseTimeColumn (l.map (fun x => Cell.stamp (g x))) =
      some (l.map (fun x => some (g x))) := by
  induction l with
  | nil => rfl
  | cons x xs ih => simp [parseTimeColumn, cellInstant, ih]

/-- Loading a table of well-formed raw rows (nonempty text name, timestamp,
three numbers) validates every row and reproduces all five field values. -/
theorem dropnaRows_wellformed {α : Type} (f : α → String) (g : α → Int)
    (p q u : α → ℚ) (l : List α) (h : ∀ x ∈ l, f x ≠ "") :
    dropnaRows
        (l.map (fun x => ⟨Cell.text (f x), Cell.stamp (g x), Cell.num (p x),
          Cell.num (q x), Cell.num (u x)⟩))
        (l.map (fun x => some (g x))) =
      l.map (fun x => ⟨f x, g x, p x, q x, u x⟩) := by
  induction l with
  | nil => rfl
  | cons x xs ih =>
    have hx : f x ≠ "" := h x (List.mem_cons_self x xs)
    have hrest := ih (fun y hy => h y (List.mem_cons_of_mem _ hy))
    simp [dropnaRows, validRow, cellString, toNumeric, hx, hrest]

/-- The Loader/Validator on a table of well-formed raw rows. -/
theorem load_wellformed {α : Type} (f : α → String) (g : α → Int) (p q u : α → ℚ)
    (l : List α) (h : ∀ x ∈ l, f x ≠ "") :
    load_orbit_data (l.map (fun x =>
        ⟨Cell.text (f x), Cell.stamp (g x), Cell.num (p x), Cell.num (q x),
         Cell.num (u x)⟩)) =
      LoadResult.parsed (l.map (fun x => ⟨f x, g x, p x, q x, u x⟩)) := by
  have hpt : parseTimeColumn ((l.map (fun x =>
      (⟨Cell.text (f x), Cell.stamp (g x), Cell.num (p x), Cell.num (q x),
        Cell.num (u x)⟩ : RawRow))).map RawRow.time) =
      some (l.map (fun x => some (g x))) := by
    rw [List.map_map]
    exact parseTimeColumn_stamps g l
  unfold load_orbit_data
  rw [hpt]
  exact congrArg LoadResult.parsed (dropnaRows_wellformed f g p q u l h)

/-- Round trip of an un-downsampled view through export and reload. -/
theorem reload_export_plain (rs : List OrbitRow) (h : ∀ r ∈ rs, r.sat ≠ "") :
    reloadCsv (exportCsv (ViewTable.plain rs)) = LoadResult.parsed rs := by
  unfold reloadCsv
  rw [rawOfCsv_plain]
  exact (load_wellformed OrbitRow.sat OrbitRow.time OrbitRow.lat OrbitRow.lon
    OrbitRow.alt rs h).trans (congrArg LoadResult.parsed (List.map_id rs))

/-- Round trip of a downsampled view through export and reload. -/
theorem reload_export_binned (bs : List BinnedRow) (h : ∀ b ∈ bs, b.sat ≠ "") :
    reloadCsv (exportCsv (ViewTable.binned bs)) =
      LoadResult.parsed (bs.map (fun b => ⟨b.sat, b.bin, b.lat, b.lon, b.alt⟩)) := by
  unfold reloadCsv
  rw [rawOfCsv_binned]
  exact load_wellformed BinnedRow.sat BinnedRow.bin BinnedRow.lat BinnedRow.lon
    BinnedRow.alt bs h

/-- C3: for every validated table (whose names, coming from validation, are
nonempty) and every sidebar state, exporting the current filtered/downsampled
view and re-loading the artifact through the Loader/Validator yields exactly
the view's OrbitSamples: every exported row survives validation, with
satellite, timestamp, latitude, longitude and altitude equal to the originals
(exact equality, hence within any epsilon; the model's cells carry values at
pandas' round-trip printing precision). -/
theorem export_reload_roundtrip (df : List OrbitRow) (c : FilterCriteria) (sel : String)
    (h : ∀ r ∈ df, r.sat ≠ "") :
    reloadCsv (renderDashboard c sel df).download =
      LoadResult.parsed (samplesOf (renderDashboard c sel df).view) := by
  have hf : ∀ r ∈ filtered_df c df, r.sat ≠ "" :=
    fun r hr => h r (mem_filtered_df.mp hr).1
  have hb : ∀ w : Int, ∀ b ∈ downsample w (filtered_df c df), b.sat ≠ "" := by
    intro w b hbmem
    obtain ⟨r, hr, hkey, -⟩ := exists_source_of_mem_downsample hbmem
    have hsat : r.sat = b.sat := by
      have := congrArg Prod.fst hkey
      simpa [keyOf] using this
    rw [← hsat]
    exact hf r hr
  show reloadCsv (exportCsv (applyTimeStep c.step (filtered_df c df))) =
    LoadResult.parsed (samplesOf (applyTimeStep c.step (filtered_df c df)))
  cases c.step with
  | all => exact reload_export_plain _ hf
  | fiveMin => exact reload_export_binned _ (hb 300)
  | tenMin => exact reload_export_binned _ (hb 600)
  | thirtyMin => exact reload_export_binned _ (hb 1800)

/-- Witness for C3 on the example table under the 5-minute resolution. -/
theorem export_reload_roundtrip_witness :
    (∀ r ∈ rowsC5, r.sat ≠ "") ∧
    reloadCsv (renderDashboard critRT "SAT-A" rowsC5).download =
      LoadResult.parsed (samplesOf (renderDashboard critRT "SAT-A" rowsC5).view) :=
  ⟨by decide, export_reload_roundtrip rowsC5 critRT "SAT-A" (by decide)⟩

end OrbitApp
